import Mathlib

/-!
Shallow embedding of the DocuChain backend authentication core
(src/src/middleware/authMiddleware.js, src/src/services/nonceService.js,
src/src/models/userModel.js) and proofs about it.

Timestamps are modelled as `Int` milliseconds (JavaScript `Date.now()`).
External collaborators are modelled as explicit parameters:
the signature-recovery oracle (`ethers.verifyMessage`) as a function
`String → String → Option String` (`none` models a throw on a malformed
signature), the random sources (`crypto.randomBytes`, `Math.random`) as
explicit string arguments, and the Mongo store for one wallet address as an
`Option User` value threaded through each operation.
-/

namespace DocuChain

/-! ## JavaScript primitives used by the source -/

/-- Decimal digit value of a character, `none` for a non-digit. -/
def decDigitVal (c : Char) : Option Nat :=
  if c.isDigit then some (c.toNat - 48) else none

/-- Hexadecimal digit value of a character, `none` for a non-hex-digit. -/
def hexDigitVal (c : Char) : Option Nat :=
  if c.isDigit then some (c.toNat - 48)
  else if 'a' ≤ c ∧ c ≤ 'f' then some (c.toNat - 87)
  else if 'A' ≤ c ∧ c ≤ 'F' then some (c.toNat - 55)
  else none

/-- Accumulate the longest leading run of digits (JS `parseInt` keeps the
numeric prefix and ignores trailing garbage). -/
def parseDigitsAux (val : Char → Option Nat) (base : Nat) : List Char → Nat → Nat
  | [], acc => acc
  | c :: cs, acc =>
    match val c with
    | none => acc
    | some d => parseDigitsAux val base cs (acc * base + d)

/-- Longest leading digit run in the given base; `none` when the first
character is not a digit (JS `parseInt` yields `NaN` then). -/
def parseDigits (val : Char → Option Nat) (base : Nat) (cs : List Char) : Option Nat :=
  match cs with
  | [] => none
  | c :: _ =>
    match val c with
    | none => none
    | some _ => some (parseDigitsAux val base cs 0)

/-- JS whitespace skipped by `parseInt` (common forms). -/
def isJsSpace (c : Char) : Bool :=
  c = ' ' ∨ c = '\t' ∨ c = '\n' ∨ c = '\r'

/-- JavaScript `parseInt(s)` with no radix argument: skip leading
whitespace, read an optional sign, then either a `0x`-prefixed hexadecimal
or a decimal digit run; `none` models `NaN`. -/
def jsParseInt (s : String) : Option Int :=
  let cs := s.toList.dropWhile isJsSpace
  let signed : Int × List Char :=
    match cs with
    | '-' :: rest => (-1, rest)
    | '+' :: rest => (1, rest)
    | _ => (1, cs)
  let body := signed.2
  match body with
  | '0' :: x :: rest =>
    if x = 'x' ∨ x = 'X' then
      (parseDigits hexDigitVal 16 rest).map (fun n => signed.1 * (n : Int))
    else
      (parseDigits decDigitVal 10 body).map (fun n => signed.1 * (n : Int))
  | _ => (parseDigits decDigitVal 10 body).map (fun n => signed.1 * (n : Int))

/-- Split a character list at every occurrence of the separator
(JS `split` with a one-character separator; structural so that closed
instances evaluate inside the kernel). -/
def splitOnCharAux (sep : Char) : List Char → List Char → List (List Char)
  | [], acc => [acc.reverse]
  | c :: cs, acc =>
    if c = sep then acc.reverse :: splitOnCharAux sep cs []
    else splitOnCharAux sep cs (c :: acc)

/-- JS `s.split(sep)` for a one-character separator. -/
def jsSplit (sep : Char) (s : String) : List String :=
  (splitOnCharAux sep s.data []).map (fun l => String.mk l)

/-- JS `s.toLowerCase()` (character-wise, which covers the ASCII hex
addresses compared by the source). -/
def jsToLower (s : String) : String :=
  String.mk (s.data.map Char.toLower)

/-! ## NonceService (src/src/services/nonceService.js) -/

namespace NonceService

/-- `generateNonce(walletAddress)`: builds
`walletAddress:timestamp:randomHex`.  `Date.now()` and the 16 random bytes
rendered as hex are explicit arguments. -/
def generateNonce (now : Int) (randomHex : String) (walletAddress : String) : String :=
  walletAddress ++ ":" ++ toString now ++ ":" ++ randomHex

/-- `validateNonce(nonce, maxAgeMinutes = 1500)`: split on colons, require
exactly three fields, `parseInt` the middle field, and compare the age
against the maximum in milliseconds.  A `NaN` timestamp fails the
comparison in JS, hence `none ⇒ false` here.  The JS default argument
`maxAgeMinutes = 1500` is passed explicitly by Lean callers. -/
def validateNonce (now : Int) (nonce : String) (maxAgeMinutes : Int) : Bool :=
  let parts := jsSplit ':' nonce
  if parts.length ≠ 3 then false
  else
    match jsParseInt (parts.getD 1 "") with
    | none => false
    | some timestamp => now - timestamp ≤ maxAgeMinutes * 60 * 1000

end NonceService

/-! ## Identity record (src/src/models/userModel.js) -/

/-- The `authentication` sub-document of the user schema. -/
structure AuthState where
  currentNonce : Option String
  lastNonceGeneratedAt : Option Int
  authAttempts : Nat
  lockedUntil : Option Int
  deriving DecidableEq, Repr

/-- One entry of `security.loginHistory`. -/
structure LoginRecord where
  timestamp : Int
  ipAddress : String
  deriving DecidableEq, Repr

/-- The `security` sub-document of the user schema. -/
structure SecurityState where
  lastLogin : Option Int
  loginHistory : List LoginRecord
  deriving DecidableEq, Repr

/-- The user document fields read or written by the authentication core.
`status` is one of active, suspended, blacklisted. -/
structure User where
  walletAddress : String
  authentication : AuthState
  security : SecurityState
  status : String
  deriving DecidableEq, Repr

/-! ## JWT model (jsonwebtoken as used in authMiddleware.js)

A signed token is modelled as its payload together with the secret it was
signed with and its expiry instant; `jwt.verify(token, secret)` succeeds
exactly when the secrets agree and the token is not yet expired. -/

/-- The claims object passed to `jwt.sign`. -/
structure Payload where
  walletAddress : String
  type : String
  deriving DecidableEq, Repr

/-- A signed token: payload, signing secret, expiry (ms timestamp). -/
structure Token where
  payload : Payload
  secret : String
  exp : Int
  deriving DecidableEq, Repr

/-- The two environment secrets. -/
structure Secrets where
  accessTokenSecret : String
  refreshTokenSecret : String
  deriving DecidableEq, Repr

/-- Failure modes of `jwt.verify`. -/
inductive JwtError where
  | tokenExpired
  | invalidSignature
  deriving DecidableEq, Repr

/-- `jwt.verify(token, secret)`: the signature check is modelled as secret
equality; an expired token raises `TokenExpiredError`. -/
def jwtVerify (now : Int) (token : Token) (secret : String) : Except JwtError Payload :=
  if token.secret ≠ secret then .error .invalidSignature
  else if token.exp ≤ now then .error .tokenExpired
  else .ok token.payload

/-- The pair returned by `generateTokens`. -/
structure Tokens where
  accessToken : Token
  refreshToken : Token
  deriving DecidableEq, Repr

namespace AuthMiddleware

/-- `generateTokens(walletAddress)`: an access token signed with the access
secret expiring in 1 hour and a refresh token signed with the refresh
secret expiring in 30 days. -/
def generateTokens (secrets : Secrets) (now : Int) (walletAddress : String) : Tokens :=
  { accessToken :=
      { payload := { walletAddress := walletAddress, type := "access" },
        secret := secrets.accessTokenSecret,
        exp := now + 60 * 60 * 1000 },
    refreshToken :=
      { payload := { walletAddress := walletAddress, type := "refresh" },
        secret := secrets.refreshTokenSecret,
        exp := now + 30 * 24 * 60 * 60 * 1000 } }

/-- Errors thrown by `verifySignature` and `generateNonce`. -/
inductive AuthError where
  /-- the message Invalid Ethereum address -/
  | invalidAddress
  /-- the message Please create an account first -/
  | noAccount
  /-- the message No valid nonce found -/
  | noValidNonce
  /-- the message Nonce has expired -/
  | nonceExpired
  /-- `ethers.verifyMessage` threw on a malformed signature -/
  | recoveryFailed
  /-- the message Signature verification failed -/
  | signatureMismatch
  deriving DecidableEq, Repr

/-- Result record of `incrementAuthAttempts`. -/
structure IncResult where
  success : Bool
  message : String
  deriving DecidableEq, Repr

/-- `incrementAuthAttempts(walletAddress)` (lines 104-145): fetch the user,
add one to `authentication.authAttempts`, and when the new count reaches
`MAX_ATTEMPTS = 5` also set `authentication.lockedUntil` to now plus
`LOCK_DURATION_MINUTES = 15`.  A missing user is caught and reported as a
failure result without touching the store. -/
def incrementAuthAttempts (now : Int) (store : Option User) : IncResult × Option User :=
  match store with
  | none => ({ success := false, message := "User not found" }, none)
  | some user =>
    let updatedAttempts := user.authentication.authAttempts + 1
    let auth0 := { user.authentication with authAttempts := updatedAttempts }
    let auth1 :=
      if updatedAttempts ≥ 5 then
        { auth0 with lockedUntil := some (now + 15 * 60 * 1000) }
      else auth0
    ({ success := true,
       message :=
         if updatedAttempts ≥ 5 then
           "Account locked due to too many authentication attempts"
         else "Authentication attempts incremented" },
     some { user with authentication := auth1 })

/-- Keep the last `n` elements of a list (the `$slice: -15` bound on
`loginHistory`). -/
def lastN (n : Nat) (l : List α) : List α :=
  l.drop (l.length - n)

/-- `verifySignature(walletAddress, signature, message, ipAddress)`
(lines 48-102): look up the user; fail when there is no user or no stored
nonce; fail when the stored nonce is stale (`validateNonce` with its
default 1500-minute bound); recover the signer from `(message, signature)`
(`recover` returns `none` when `ethers.verifyMessage` throws); on a
case-insensitive mismatch with the claimed address, run
`incrementAuthAttempts` and fail; otherwise clear the nonce, zero the
attempt counter, record the login, and return a fresh token pair.  The
updated store is returned alongside the result. -/
def verifySignature (secrets : Secrets) (recover : String → String → Option String)
    (now : Int) (store : Option User)
    (walletAddress signature message ipAddress : String) :
    Except AuthError Tokens × Option User :=
  match store with
  | none => (.error .noValidNonce, store)
  | some user =>
    match user.authentication.currentNonce with
    | none => (.error .noValidNonce, store)
    | some nonce =>
      if ¬ NonceService.validateNonce now nonce 1500 then
        (.error .nonceExpired, store)
      else
        match recover message signature with
        | none => (.error .recoveryFailed, store)
        | some signerAddress =>
          if jsToLower signerAddress ≠ jsToLower walletAddress then
            (.error .signatureMismatch, (incrementAuthAttempts now store).2)
          else
            let user1 :=
              { user with
                authentication :=
                  { user.authentication with
                    currentNonce := none,
                    authAttempts := 0 },
                security :=
                  { lastLogin := some now,
                    loginHistory :=
                      lastN 15 (user.security.loginHistory ++
                        [{ timestamp := now, ipAddress := ipAddress }]) } }
            (.ok (generateTokens secrets now walletAddress), some user1)

/-- `generateNonce(walletAddress)` (lines 17-45): reject a malformed
address (`ethers.isAddress` is the external predicate `isAddr`), reject an
unknown user, otherwise store a fresh nonce and its issue time on the user
record and return it. -/
def generateNonce (isAddr : String → Bool) (now : Int) (randomHex : String)
    (store : Option User) (walletAddress : String) :
    Except AuthError String × Option User :=
  if ¬ isAddr walletAddress then (.error .invalidAddress, store)
  else
    match store with
    | none => (.error .noAccount, store)
    | some user =>
      let nonce := NonceService.generateNonce now randomHex walletAddress
      (.ok nonce,
       some { user with
              authentication :=
                { user.authentication with
                  currentNonce := some nonce,
                  lastNonceGeneratedAt := some now } })

/-- Failure modes of `refreshAccessToken`. -/
inductive RefreshError where
  /-- `jwt.verify` rejected the token -/
  | jwt (e : JwtError)
  /-- the message Invalid refresh token -/
  | invalidTokenType
  deriving DecidableEq, Repr

/-- `refreshAccessToken(refreshToken)` (lines 238-256): verify the token
under the refresh secret, reject a payload whose `type` is not
the string refresh, otherwise mint a fresh access token for the embedded
wallet address. -/
def refreshAccessToken (secrets : Secrets) (now : Int) (refreshToken : Token) :
    Except RefreshError Token :=
  match jwtVerify now refreshToken secrets.refreshTokenSecret with
  | .error e => .error (.jwt e)
  | .ok decoded =>
    if decoded.type ≠ "refresh" then .error .invalidTokenType
    else .ok (generateTokens secrets now decoded.walletAddress).accessToken

/-- The observable outcome of the `authenticateRequest` middleware
(lines 162-207): which 401 response is sent, or which wallet address is
attached to the request before `next()` runs. -/
inductive RequestOutcome where
  /-- 401 No token provided -/
  | noToken
  /-- 401 Token expired -/
  | tokenExpired
  /-- 401 Authentication failed -/
  | authFailed
  /-- 401 Invalid token type -/
  | invalidTokenType
  /-- 401 User not found -/
  | userNotFound
  /-- `req.user.walletAddress` set and `next()` called -/
  | ok (walletAddress : String)
  deriving DecidableEq, Repr

/-- `authenticateRequest(req, res, next)`: a missing Authorization header
is a 401; the bearer token is verified under the access secret (an expired
token and a bad signature give distinct 401s); a payload whose `type` is
not the string access is a 401; an address that resolves to no stored user
is a 401; otherwise the address is attached and the chain continues.  The
bearer token extracted from the header is passed directly
(`none` models a missing header). -/
def authenticateRequest (secrets : Secrets) (now : Int)
    (findUser : String → Option User) (bearer : Option Token) : RequestOutcome :=
  match bearer with
  | none => .noToken
  | some token =>
    match jwtVerify now token secrets.accessTokenSecret with
    | .error .tokenExpired => .tokenExpired
    | .error .invalidSignature => .authFailed
    | .ok decoded =>
      if decoded.type ≠ "access" then .invalidTokenType
      else
        match findUser decoded.walletAddress with
        | none => .userNotFound
        | some _ => .ok decoded.walletAddress

/-! ### The two await-separated phases of verifySignature

`verifySignature` performs `await userModel.findOne` (the read), purely
local validation and recovery, and then `await userModel.updateOne` (the
write); the write filter is only `{ walletAddress }`, with no condition on
the stored nonce.  Splitting the function at that awaited boundary makes
the interleavings of two concurrent calls expressible: each call first
runs its read phase against the store as it then is, and later applies its
write phase to the store as it has become. -/

/-- The read-and-validate phase of `verifySignature`: everything before the
`updateOne` write, evaluated against a snapshot of the store. -/
def verifyReadPhase (recover : String → String → Option String) (now : Int)
    (store : Option User) (walletAddress signature message : String) :
    Except AuthError Unit :=
  match store with
  | none => .error .noValidNonce
  | some user =>
    match user.authentication.currentNonce with
    | none => .error .noValidNonce
    | some nonce =>
      if ¬ NonceService.validateNonce now nonce 1500 then .error .nonceExpired
      else
        match recover message signature with
        | none => .error .recoveryFailed
        | some signerAddress =>
          if jsToLower signerAddress ≠ jsToLower walletAddress then .error .signatureMismatch
          else .ok ()

/-- The write-and-issue phase of `verifySignature`: the `updateOne` whose
filter is only the wallet address — it clears whatever nonce is stored at
the moment it runs, unconditionally — followed by `generateTokens`. -/
def verifyWritePhase (secrets : Secrets) (now : Int) (store : Option User)
    (walletAddress ipAddress : String) : Tokens × Option User :=
  match store with
  | none => (generateTokens secrets now walletAddress, none)
  | some user =>
    (generateTokens secrets now walletAddress,
     some { user with
            authentication :=
              { user.authentication with currentNonce := none, authAttempts := 0 },
            security :=
              { lastLogin := some now,
                loginHistory :=
                  lastN 15 (user.security.loginHistory ++
                    [{ timestamp := now, ipAddress := ipAddress }]) } })

end AuthMiddleware

/-! ## OTC store (the one-time-code module, lines 441-535) -/

/-- One stored entry of the in-memory `otpStore` map. -/
structure OtpEntry where
  otp : String
  timestamp : Int
  attempts : Nat
  deriving DecidableEq, Repr

/-- The process-wide `otpStore` map, keyed by user id. -/
def OtpStore : Type := String → Option OtpEntry

/-- `otpStore.set(key, entry)`. -/
def OtpStore.set (store : OtpStore) (key : String) (entry : OtpEntry) : OtpStore :=
  fun k => if k = key then some entry else store k

/-- `otpStore.delete(key)`. -/
def OtpStore.del (store : OtpStore) (key : String) : OtpStore :=
  fun k => if k = key then none else store k

/-- `generateOTPForUser(userId)` (lines 459-471): store the freshly
generated 6-digit code with the current timestamp and zero attempts,
overwriting any prior entry, and return the code.  The random code
(`Math.floor(100000 + Math.random() * 900000).toString()`) is an explicit
argument. -/
def generateOTPForUser (now : Int) (code : String) (store : OtpStore)
    (userId : String) : String × OtpStore :=
  (code, store.set userId { otp := code, timestamp := now, attempts := 0 })

/-- `verifyOTP(userId, otp)` (lines 479-513): no entry ⇒ false; an entry
older than 5 minutes ⇒ delete, false; three attempts already used ⇒
delete, false; otherwise the attempt counter is bumped and stored, and the
candidate is compared with the stored code — a match deletes the entry and
returns true, a mismatch leaves the bumped entry and returns false. -/
def verifyOTP (now : Int) (store : OtpStore) (userId otp : String) :
    Bool × OtpStore :=
  match store userId with
  | none => (false, store)
  | some storedData =>
    if now - storedData.timestamp > 5 * 60 * 1000 then
      (false, store.del userId)
    else if storedData.attempts ≥ 3 then
      (false, store.del userId)
    else
      let bumped := { storedData with attempts := storedData.attempts + 1 }
      let store1 := store.set userId bumped
      if storedData.otp = otp then (true, store1.del userId)
      else (false, store1)

/-! ## Spec-side definitions

For the two refinement claims these restate the behaviour in the words of
the specification, to be compared with the definitions embedded from the
source. -/

/-- Modelled from the spec wording for the nonce freshness check: the
input must split into exactly three colon-delimited fields, a non-numeric
timestamp field is not fresh, and otherwise the nonce is fresh exactly
when now minus the embedded timestamp is at most the maximum age. -/
def validateNonceSpec (now : Int) (nonce : String) (maxAgeMinutes : Int) : Bool :=
  match jsSplit ':' nonce with
  | [_, tsField, _] =>
    match jsParseInt tsField with
    | none => false
    | some timestamp => now - timestamp ≤ maxAgeMinutes * 60 * 1000
  | _ => false

/-- Modelled from the spec wording for the OTC verify algorithm: absent
entry is false; an entry older than 5 minutes is deleted and false
returned; an entry with three or more used attempts is deleted and false
returned; otherwise the attempt counter is spent and the entry is deleted
with true returned exactly when the candidate equals the stored code, else
false is returned with the bumped entry retained. -/
def verifyOTPSpec (now : Int) (store : OtpStore) (key cand : String) :
    Bool × OtpStore :=
  match store key with
  | none => (false, store)
  | some e =>
    if now - e.timestamp > 5 * 60 * 1000 then (false, store.del key)
    else if e.attempts ≥ 3 then (false, store.del key)
    else if cand = e.otp then (true, store.del key)
    else (false, store.set key { e with attempts := e.attempts + 1 })

/-! ## Record surgeries used to state the claims -/

/-- Replace only the lockedUntil field of a record. -/
def setLocked (u : User) (l : Option Int) : User :=
  { u with authentication := { u.authentication with lockedUntil := l } }

/-- Replace only the status field of a record. -/
def setStatus (u : User) (s : String) : User :=
  { u with status := s }

/-- The record produced by one failed-attempt bump: the counter grows by
one and, when it reaches five, lockedUntil moves 15 minutes past now. -/
def bumpUser (now : Int) (u : User) : User :=
  { u with
    authentication :=
      { u.authentication with
        authAttempts := u.authentication.authAttempts + 1,
        lockedUntil :=
          if u.authentication.authAttempts + 1 ≥ 5 then
            some (now + 15 * 60 * 1000)
          else u.authentication.lockedUntil } }

/-- The record produced by the success-path updateOne of verifySignature:
nonce cleared, attempt counter zeroed, login recorded with the last 15
history entries kept. -/
def clearUser (now : Int) (ipAddress : String) (u : User) : User :=
  { u with
    authentication :=
      { u.authentication with currentNonce := none, authAttempts := 0 },
    security :=
      { lastLogin := some now,
        loginHistory :=
          AuthMiddleware.lastN 15 (u.security.loginHistory ++
            [{ timestamp := now, ipAddress := ipAddress }]) } }

/-! ## Concrete instances for the closed theorems -/

/-- Concrete environment secrets. -/
def exSecrets : Secrets :=
  { accessTokenSecret := "access-secret", refreshTokenSecret := "refresh-secret" }

/-- A recovery oracle whose recovered signer matches wallet 0xab up to
case. -/
def exMatchRecover : String → String → Option String :=
  fun _ _ => some "0xAB"

/-- A recovery oracle whose recovered signer never matches wallet 0xab. -/
def exMismatchRecover : String → String → Option String :=
  fun _ _ => some "0xCD"

/-- A registered user holding the fresh nonce 0xab:0:ff, no failed
attempts, no lock. -/
def exUser0 : User :=
  { walletAddress := "0xab",
    authentication :=
      { currentNonce := some "0xab:0:ff",
        lastNonceGeneratedAt := some 0,
        authAttempts := 0,
        lockedUntil := none },
    security := { lastLogin := none, loginHistory := [] },
    status := "active" }

/-- The record left behind by a successful verification of exUser0 at
time 0 from source address 1.2.3.4. -/
def exUser1 : User :=
  { walletAddress := "0xab",
    authentication :=
      { currentNonce := none,
        lastNonceGeneratedAt := some 0,
        authAttempts := 0,
        lockedUntil := none },
    security :=
      { lastLogin := some 0,
        loginHistory := [{ timestamp := 0, ipAddress := "1.2.3.4" }] },
    status := "active" }

/-- A registered user holding the fresh nonce 0xab:1000:ff at time 1000,
with a zero attempt counter. -/
def exUserZero : User :=
  { walletAddress := "0xab",
    authentication :=
      { currentNonce := some "0xab:1000:ff",
        lastNonceGeneratedAt := some 1000,
        authAttempts := 0,
        lockedUntil := none },
    security := { lastLogin := none, loginHistory := [] },
    status := "active" }

/-- One failed verification call at time 1000 against wallet 0xab with a
mismatching signer, seen through its store effect. -/
def exMismatchStep (s : Option User) : Option User :=
  (AuthMiddleware.verifySignature exSecrets exMismatchRecover 1000 s
    "0xab" "sig" "msg" "9.9.9.9").2

/-- An empty OTC store. -/
def exEmptyOtp : OtpStore := fun _ => none

/-! ## Theorems -/

/-- Helper: with a stored fresh nonce and a recovered signer that
mismatches the claimed address up to case, verifySignature records one
failed attempt and throws the mismatch error. -/
theorem verify_mismatch_eq (secrets : Secrets)
    (recover : String → String → Option String) (now : Int) (user : User)
    (walletAddress signature message ipAddress nonce signer : String)
    (hn : user.authentication.currentNonce = some nonce)
    (hfresh : NonceService.validateNonce now nonce 1500 = true)
    (hrec : recover message signature = some signer)
    (hmm : jsToLower signer ≠ jsToLower walletAddress) :
    AuthMiddleware.verifySignature secrets recover now (some user)
      walletAddress signature message ipAddress =
      (.error .signatureMismatch, some (bumpUser now user)) := by
  unfold AuthMiddleware.verifySignature AuthMiddleware.incrementAuthAttempts bumpUser
  by_cases hc : 5 ≤ user.authentication.authAttempts + 1 <;>
    simp [hn, hfresh, hrec, hmm, hc]

/-- Helper: with a stored fresh nonce and a recovered signer matching the
claimed address up to case, verifySignature clears the nonce, records the
login, and returns the token pair. -/
theorem verify_success_eq (secrets : Secrets)
    (recover : String → String → Option String) (now : Int) (user : User)
    (walletAddress signature message ipAddress nonce signer : String)
    (hn : user.authentication.currentNonce = some nonce)
    (hfresh : NonceService.validateNonce now nonce 1500 = true)
    (hrec : recover message signature = some signer)
    (hok : jsToLower signer = jsToLower walletAddress) :
    AuthMiddleware.verifySignature secrets recover now (some user)
      walletAddress signature message ipAddress =
      (.ok (AuthMiddleware.generateTokens secrets now walletAddress),
       some (clearUser now ipAddress user)) := by
  unfold AuthMiddleware.verifySignature clearUser
  simp [hn, hfresh, hrec, hok]

/-- C1: replay protection — whenever verifySignature succeeds, the store
it leaves behind holds no current nonce, and a second verifySignature call
for the same address with the same message and signature against that
store fails with the no-valid-nonce error instead of succeeding. -/
theorem c1_replay_protection (secrets : Secrets)
    (recover recover2 : String → String → Option String) (now now2 : Int)
    (store store1 : Option User)
    (walletAddress signature message ipAddress ip2 : String) (tokens : Tokens)
    (h : AuthMiddleware.verifySignature secrets recover now store
          walletAddress signature message ipAddress = (.ok tokens, store1)) :
    (store1.bind fun u => u.authentication.currentNonce) = none ∧
    (AuthMiddleware.verifySignature secrets recover2 now2 store1
      walletAddress signature message ip2).1 = .error .noValidNonce := by
  unfold AuthMiddleware.verifySignature at h
  split at h
  · simp at h
  · split at h
    · simp at h
    · split at h
      · simp at h
      · split at h
        · simp at h
        · split at h
          · simp at h
          · rw [Prod.mk.injEq] at h
            rw [← h.2]
            constructor
            · simp
            · unfold AuthMiddleware.verifySignature
              simp

/-- C1 witness at a concrete input: a successful verification of exUser0
at time 0 leaves exUser1, whose nonce is cleared, and the replayed call at
time 5 fails with the no-valid-nonce error. -/
theorem c1_replay_protection_witness :
    ((some exUser1).bind fun u => u.authentication.currentNonce) = none ∧
    (AuthMiddleware.verifySignature exSecrets exMatchRecover 5 (some exUser1)
      "0xab" "sig" "msg" "5.6.7.8").1 = .error .noValidNonce :=
  c1_replay_protection exSecrets exMatchRecover exMatchRecover 0 5
    (some exUser0) (some exUser1) "0xab" "sig" "msg" "1.2.3.4" "5.6.7.8"
    (AuthMiddleware.generateTokens exSecrets 0 "0xab") (by rfl)

/-- C3: verifySignature reads no lockout state — a record whose
lockedUntil lies in the future, holding a fresh nonce, with a signature
recovering to the claimed address, still authenticates and receives the
access and refresh token pair, and its outcome is identical to that of the
same record with lockedUntil null; the lockout window by itself blocks
nothing. -/
theorem c3_lockout_never_read (secrets : Secrets)
    (recover : String → String → Option String) (now lock : Int) (u : User)
    (walletAddress signature message ipAddress nonce signer : String)
    (hfut : now < lock)
    (hn : u.authentication.currentNonce = some nonce)
    (hfresh : NonceService.validateNonce now nonce 1500 = true)
    (hrec : recover message signature = some signer)
    (hok : jsToLower signer = jsToLower walletAddress) :
    (AuthMiddleware.verifySignature secrets recover now
      (some (setLocked u (some lock))) walletAddress signature message ipAddress).1
      = .ok (AuthMiddleware.generateTokens secrets now walletAddress) ∧
    (AuthMiddleware.verifySignature secrets recover now
      (some (setLocked u (some lock))) walletAddress signature message ipAddress).1
      = (AuthMiddleware.verifySignature secrets recover now
          (some (setLocked u none)) walletAddress signature message ipAddress).1 := by
  have hn1 : (setLocked u (some lock)).authentication.currentNonce = some nonce := by
    simpa [setLocked] using hn
  have hn2 : (setLocked u none).authentication.currentNonce = some nonce := by
    simpa [setLocked] using hn
  rw [verify_success_eq secrets recover now (setLocked u (some lock))
        walletAddress signature message ipAddress nonce signer hn1 hfresh hrec hok,
      verify_success_eq secrets recover now (setLocked u none)
        walletAddress signature message ipAddress nonce signer hn2 hfresh hrec hok]
  exact ⟨rfl, rfl⟩

/-- C3 witness at a concrete input: exUser0 locked until time 999999 still
authenticates at time 0 exactly like its unlocked twin. -/
theorem c3_lockout_never_read_witness :
    (AuthMiddleware.verifySignature exSecrets exMatchRecover 0
      (some (setLocked exUser0 (some 999999))) "0xab" "sig" "msg" "1.2.3.4").1
      = .ok (AuthMiddleware.generateTokens exSecrets 0 "0xab") ∧
    (AuthMiddleware.verifySignature exSecrets exMatchRecover 0
      (some (setLocked exUser0 (some 999999))) "0xab" "sig" "msg" "1.2.3.4").1
      = (AuthMiddleware.verifySignature exSecrets exMatchRecover 0
          (some (setLocked exUser0 none)) "0xab" "sig" "msg" "1.2.3.4").1 :=
  c3_lockout_never_read exSecrets exMatchRecover 0 999999 exUser0
    "0xab" "sig" "msg" "1.2.3.4" "0xab:0:ff" "0xAB"
    (by decide) (by decide) (by decide) (by decide) (by decide)

/-- C4: a mismatch records the failed attempt before the call fails — when
the recovered signer differs case-insensitively from the claimed address,
the call throws the signature-mismatch error, the stored attempt counter
has grown by one, and once the grown count reaches five the lock is set to
15 minutes past now. -/
theorem c4_mismatch_records_attempt (secrets : Secrets)
    (recover : String → String → Option String) (now : Int) (user : User)
    (walletAddress signature message ipAddress nonce signer : String)
    (hn : user.authentication.currentNonce = some nonce)
    (hfresh : NonceService.validateNonce now nonce 1500 = true)
    (hrec : recover message signature = some signer)
    (hmm : jsToLower signer ≠ jsToLower walletAddress) :
    AuthMiddleware.verifySignature secrets recover now (some user)
      walletAddress signature message ipAddress =
      (.error .signatureMismatch, some (bumpUser now user)) ∧
    (bumpUser now user).authentication.authAttempts
      = user.authentication.authAttempts + 1 ∧
    (5 ≤ user.authentication.authAttempts + 1 →
      (bumpUser now user).authentication.lockedUntil
        = some (now + 15 * 60 * 1000)) := by
  refine ⟨verify_mismatch_eq secrets recover now user walletAddress signature
    message ipAddress nonce signer hn hfresh hrec hmm, by simp [bumpUser], ?_⟩
  intro h5
  simp [bumpUser, h5]

/-- C4 witness at a concrete input: a mismatching signer against exUserZero
at time 1000 fails with the mismatch error and bumps the counter to one. -/
theorem c4_mismatch_records_attempt_witness :
    AuthMiddleware.verifySignature exSecrets exMismatchRecover 1000
      (some exUserZero) "0xab" "sig" "msg" "9.9.9.9" =
      (.error .signatureMismatch, some (bumpUser 1000 exUserZero)) ∧
    (bumpUser 1000 exUserZero).authentication.authAttempts
      = exUserZero.authentication.authAttempts + 1 ∧
    (5 ≤ exUserZero.authentication.authAttempts + 1 →
      (bumpUser 1000 exUserZero).authentication.lockedUntil
        = some (1000 + 15 * 60 * 1000)) :=
  c4_mismatch_records_attempt exSecrets exMismatchRecover 1000 exUserZero
    "0xab" "sig" "msg" "9.9.9.9" "0xab:1000:ff" "0xCD"
    (by decide) (by decide) (by decide) (by decide)

/-- Helper: verifySignature is exactly its read-and-validate phase (up to
the awaited findOne and the purely local checks) followed, on success, by
the unconditional write-and-issue phase, and on a mismatch by the
failed-attempt write — the decomposition used to express interleavings of
two concurrent calls. -/
theorem verifySignature_phase_decomposition (secrets : Secrets)
    (recover : String → String → Option String) (now : Int)
    (store : Option User) (walletAddress signature message ipAddress : String) :
    AuthMiddleware.verifySignature secrets recover now store
      walletAddress signature message ipAddress =
      match AuthMiddleware.verifyReadPhase recover now store
          walletAddress signature message with
      | .ok _ =>
        (.ok (AuthMiddleware.verifyWritePhase secrets now store
            walletAddress ipAddress).1,
         (AuthMiddleware.verifyWritePhase secrets now store
            walletAddress ipAddress).2)
      | .error .signatureMismatch =>
        (.error .signatureMismatch,
         (AuthMiddleware.incrementAuthAttempts now store).2)
      | .error e => (.error e, store) := by
  unfold AuthMiddleware.verifySignature AuthMiddleware.verifyReadPhase
    AuthMiddleware.verifyWritePhase
  cases store with
  | none => simp
  | some user =>
    cases hcn : user.authentication.currentNonce with
    | none => simp [hcn]
    | some nonce =>
      by_cases hfresh : NonceService.validateNonce now nonce 1500
      · cases hrec : recover message signature with
        | none => simp [hcn, hfresh, hrec]
        | some signer =>
          by_cases hmm : jsToLower signer ≠ jsToLower walletAddress <;>
            simp [hcn, hfresh, hrec, hmm]
      · simp [hcn, hfresh]

/-- C10: nonce consumption is not an atomic compare-and-clear — the write
phase filters only on the wallet address, so under the interleaving in
which both concurrent calls run their read phase against the same stored
fresh nonce before either runs its write phase, both calls pass every
check and both return a token pair: the first write clears the nonce, yet
the second call, whose checks already ran, still writes and issues tokens.
The last conjunct ties the two phases to verifySignature itself at this
input. -/
theorem c10_nonce_race_both_calls_succeed :
    AuthMiddleware.verifyReadPhase exMatchRecover 0 (some exUser0)
      "0xab" "sig" "msg" = .ok () ∧
    AuthMiddleware.verifyWritePhase exSecrets 0 (some exUser0) "0xab" "1.2.3.4"
      = (AuthMiddleware.generateTokens exSecrets 0 "0xab", some exUser1) ∧
    exUser1.authentication.currentNonce = none ∧
    (AuthMiddleware.verifyWritePhase exSecrets 0 (some exUser1) "0xab" "5.6.7.8").1
      = AuthMiddleware.generateTokens exSecrets 0 "0xab" ∧
    AuthMiddleware.verifySignature exSecrets exMatchRecover 0 (some exUser0)
        "0xab" "sig" "msg" "1.2.3.4"
      = (.ok (AuthMiddleware.generateTokens exSecrets 0 "0xab"), some exUser1) := by
  refine ⟨rfl, rfl, rfl, rfl, rfl⟩

/-- C2 counterexample: five consecutive mismatched calls against
exUserZero do set lockedUntil to 15 minutes past the fifth failure at time
1000, yet the sixth attempt inside that window fails with exactly the
.signatureMismatch error — the very error value a plain first-attempt
mismatch produces — so the sixth failure is not distinct from a plain
signature mismatch. -/
theorem c2_sixth_attempt_error_not_distinct :
    ((exMismatchStep^[5] (some exUserZero)).bind
      fun u => u.authentication.lockedUntil) = some 901000 ∧
    (AuthMiddleware.verifySignature exSecrets exMismatchRecover 1000
      (exMismatchStep^[5] (some exUserZero)) "0xab" "sig" "msg" "9.9.9.9").1
      = .error .signatureMismatch ∧
    (AuthMiddleware.verifySignature exSecrets exMismatchRecover 1000
      (some exUserZero) "0xab" "sig" "msg" "9.9.9.9").1
      = .error .signatureMismatch := by
  refine ⟨rfl, rfl, rfl⟩

/-- C2 amended: for every registered record with a zero attempt counter
and a stored nonce that stays fresh across the calls, five consecutive
verifySignature calls whose recovered signer mismatches the address leave
lockedUntil set to 15 minutes after the fifth failure; but verifySignature
performs no lockout check, so a sixth attempt within that window fails
with the same signature-mismatch error as the first five, not with a
distinct lockout error. -/
theorem c2_lockout_after_five_failures (secrets : Secrets)
    (recover : String → String → Option String) (t1 t2 t3 t4 t5 t6 : Int)
    (u0 : User) (walletAddress signature message ipAddress nonce signer : String)
    (hn : u0.authentication.currentNonce = some nonce)
    (ha : u0.authentication.authAttempts = 0)
    (hf1 : NonceService.validateNonce t1 nonce 1500 = true)
    (hf2 : NonceService.validateNonce t2 nonce 1500 = true)
    (hf3 : NonceService.validateNonce t3 nonce 1500 = true)
    (hf4 : NonceService.validateNonce t4 nonce 1500 = true)
    (hf5 : NonceService.validateNonce t5 nonce 1500 = true)
    (hf6 : NonceService.validateNonce t6 nonce 1500 = true)
    (hrec : recover message signature = some signer)
    (hmm : jsToLower signer ≠ jsToLower walletAddress)
    (hwin : t6 < t5 + 15 * 60 * 1000) :
    AuthMiddleware.verifySignature secrets recover t1 (some u0)
        walletAddress signature message ipAddress
      = (.error .signatureMismatch, some (bumpUser t1 u0)) ∧
    AuthMiddleware.verifySignature secrets recover t2 (some (bumpUser t1 u0))
        walletAddress signature message ipAddress
      = (.error .signatureMismatch, some (bumpUser t2 (bumpUser t1 u0))) ∧
    AuthMiddleware.verifySignature secrets recover t3
        (some (bumpUser t2 (bumpUser t1 u0)))
        walletAddress signature message ipAddress
      = (.error .signatureMismatch,
         some (bumpUser t3 (bumpUser t2 (bumpUser t1 u0)))) ∧
    AuthMiddleware.verifySignature secrets recover t4
        (some (bumpUser t3 (bumpUser t2 (bumpUser t1 u0))))
        walletAddress signature message ipAddress
      = (.error .signatureMismatch,
         some (bumpUser t4 (bumpUser t3 (bumpUser t2 (bumpUser t1 u0))))) ∧
    AuthMiddleware.verifySignature secrets recover t5
        (some (bumpUser t4 (bumpUser t3 (bumpUser t2 (bumpUser t1 u0)))))
        walletAddress signature message ipAddress
      = (.error .signatureMismatch,
         some (bumpUser t5 (bumpUser t4 (bumpUser t3 (bumpUser t2 (bumpUser t1 u0)))))) ∧
    (bumpUser t5 (bumpUser t4 (bumpUser t3 (bumpUser t2
        (bumpUser t1 u0))))).authentication.lockedUntil
      = some (t5 + 15 * 60 * 1000) ∧
    (AuthMiddleware.verifySignature secrets recover t6
      (some (bumpUser t5 (bumpUser t4 (bumpUser t3 (bumpUser t2 (bumpUser t1 u0))))))
      walletAddress signature message ipAddress).1
      = .error .signatureMismatch := by
  have hbn : ∀ (t : Int) (v : User),
      (bumpUser t v).authentication.currentNonce
        = v.authentication.currentNonce := by
    intro t v; simp [bumpUser]
  have hba : ∀ (t : Int) (v : User),
      (bumpUser t v).authentication.authAttempts
        = v.authentication.authAttempts + 1 := by
    intro t v; simp [bumpUser]
  have ha4 : (bumpUser t4 (bumpUser t3 (bumpUser t2
      (bumpUser t1 u0)))).authentication.authAttempts = 4 := by
    simp [hba, ha]
  refine ⟨verify_mismatch_eq secrets recover t1 u0 walletAddress signature
            message ipAddress nonce signer hn hf1 hrec hmm,
          verify_mismatch_eq secrets recover t2 _ walletAddress signature
            message ipAddress nonce signer (by simp [hbn, hn]) hf2 hrec hmm,
          verify_mismatch_eq secrets recover t3 _ walletAddress signature
            message ipAddress nonce signer (by simp [hbn, hn]) hf3 hrec hmm,
          verify_mismatch_eq secrets recover t4 _ walletAddress signature
            message ipAddress nonce signer (by simp [hbn, hn]) hf4 hrec hmm,
          verify_mismatch_eq secrets recover t5 _ walletAddress signature
            message ipAddress nonce signer (by simp [hbn, hn]) hf5 hrec hmm,
          ?_, ?_⟩
  · rw [show (bumpUser t5 (bumpUser t4 (bumpUser t3 (bumpUser t2
        (bumpUser t1 u0))))).authentication.lockedUntil
        = if 5 ≤ (bumpUser t4 (bumpUser t3 (bumpUser t2
            (bumpUser t1 u0)))).authentication.authAttempts + 1 then
            some (t5 + 15 * 60 * 1000)
          else (bumpUser t4 (bumpUser t3 (bumpUser t2
            (bumpUser t1 u0)))).authentication.lockedUntil
      from by simp [bumpUser]]
    rw [ha4]
    simp
  · rw [verify_mismatch_eq secrets recover t6 _ walletAddress signature
          message ipAddress nonce signer (by simp [hbn, hn]) hf6 hrec hmm]

/-- C2 witness for the amended claim at a concrete input: exUserZero, all
six calls at time 1000 with a mismatching recovered signer. -/
theorem c2_lockout_after_five_failures_witness :
    AuthMiddleware.verifySignature exSecrets exMismatchRecover 1000 (some exUserZero)
        "0xab" "sig" "msg" "9.9.9.9"
      = (.error .signatureMismatch, some (bumpUser 1000 exUserZero)) ∧
    AuthMiddleware.verifySignature exSecrets exMismatchRecover 1000
        (some (bumpUser 1000 exUserZero)) "0xab" "sig" "msg" "9.9.9.9"
      = (.error .signatureMismatch, some (bumpUser 1000 (bumpUser 1000 exUserZero))) ∧
    AuthMiddleware.verifySignature exSecrets exMismatchRecover 1000
        (some (bumpUser 1000 (bumpUser 1000 exUserZero))) "0xab" "sig" "msg" "9.9.9.9"
      = (.error .signatureMismatch,
         some (bumpUser 1000 (bumpUser 1000 (bumpUser 1000 exUserZero)))) ∧
    AuthMiddleware.verifySignature exSecrets exMismatchRecover 1000
        (some (bumpUser 1000 (bumpUser 1000 (bumpUser 1000 exUserZero))))
        "0xab" "sig" "msg" "9.9.9.9"
      = (.error .signatureMismatch,
         some (bumpUser 1000 (bumpUser 1000 (bumpUser 1000 (bumpUser 1000 exUserZero))))) ∧
    AuthMiddleware.verifySignature exSecrets exMismatchRecover 1000
        (some (bumpUser 1000 (bumpUser 1000 (bumpUser 1000 (bumpUser 1000 exUserZero)))))
        "0xab" "sig" "msg" "9.9.9.9"
      = (.error .signatureMismatch,
         some (bumpUser 1000 (bumpUser 1000 (bumpUser 1000 (bumpUser 1000
           (bumpUser 1000 exUserZero)))))) ∧
    (bumpUser 1000 (bumpUser 1000 (bumpUser 1000 (bumpUser 1000
        (bumpUser 1000 exUserZero))))).authentication.lockedUntil
      = some (1000 + 15 * 60 * 1000) ∧
    (AuthMiddleware.verifySignature exSecrets exMismatchRecover 1000
      (some (bumpUser 1000 (bumpUser 1000 (bumpUser 1000 (bumpUser 1000
        (bumpUser 1000 exUserZero))))))
      "0xab" "sig" "msg" "9.9.9.9").1
      = .error .signatureMismatch :=
  c2_lockout_after_five_failures exSecrets exMismatchRecover
    1000 1000 1000 1000 1000 1000 exUserZero
    "0xab" "sig" "msg" "9.9.9.9" "0xab:1000:ff" "0xCD"
    (by decide) (by decide) (by decide) (by decide) (by decide) (by decide)
    (by decide) (by decide) (by decide) (by decide) (by decide)

/-- Helper: generateNonce commutes with a status change — the outcome is
unchanged and the store effect carries the status through untouched. -/
theorem generateNonce_setStatus (isAddr : String → Bool) (now : Int)
    (randomHex : String) (u : User) (st walletAddress : String) :
    AuthMiddleware.generateNonce isAddr now randomHex (some (setStatus u st)) walletAddress =
      ((AuthMiddleware.generateNonce isAddr now randomHex (some u) walletAddress).1,
       Option.map (fun v => setStatus v st)
         (AuthMiddleware.generateNonce isAddr now randomHex (some u) walletAddress).2) := by
  unfold AuthMiddleware.generateNonce
  by_cases hA : isAddr walletAddress <;> simp [hA, setStatus]

/-- Helper: verifySignature commutes with a status change — the outcome is
unchanged and the store effect carries the status through untouched. -/
theorem verifySignature_setStatus (secrets : Secrets)
    (recover : String → String → Option String) (now : Int) (u : User)
    (st walletAddress signature message ipAddress : String) :
    AuthMiddleware.verifySignature secrets recover now (some (setStatus u st))
      walletAddress signature message ipAddress =
      ((AuthMiddleware.verifySignature secrets recover now (some u)
          walletAddress signature message ipAddress).1,
       Option.map (fun v => setStatus v st)
         (AuthMiddleware.verifySignature secrets recover now (some u)
           walletAddress signature message ipAddress).2) := by
  unfold AuthMiddleware.verifySignature AuthMiddleware.incrementAuthAttempts
  cases hcn : u.authentication.currentNonce with
  | none => simp [setStatus, hcn]
  | some nonce =>
    by_cases hfresh : NonceService.validateNonce now nonce 1500
    · cases hrec : recover message signature with
      | none => simp [setStatus, hcn, hfresh, hrec]
      | some signer =>
        by_cases hmm : jsToLower signer ≠ jsToLower walletAddress
        · by_cases hc : 5 ≤ u.authentication.authAttempts + 1 <;>
            simp [setStatus, hcn, hfresh, hrec, hmm, hc]
        · simp [setStatus, hcn, hfresh, hrec, hmm]
    · simp [setStatus, hcn, hfresh]

/-- C9: status noninterference — neither generateNonce nor verifySignature
reads the status field: on two records that differ only in status (for
instance active versus suspended or blacklisted) each operation produces
the same outcome and the same tokens, and its store effect differs only in
the carried-through status. -/
theorem c9_status_noninterference (isAddr : String → Bool) (secrets : Secrets)
    (recover : String → String → Option String) (now : Int) (randomHex : String)
    (u : User) (st walletAddress signature message ipAddress : String) :
    (AuthMiddleware.generateNonce isAddr now randomHex
        (some (setStatus u st)) walletAddress).1
      = (AuthMiddleware.generateNonce isAddr now randomHex
          (some u) walletAddress).1 ∧
    (AuthMiddleware.generateNonce isAddr now randomHex
        (some (setStatus u st)) walletAddress).2
      = Option.map (fun v => setStatus v st)
          (AuthMiddleware.generateNonce isAddr now randomHex
            (some u) walletAddress).2 ∧
    (AuthMiddleware.verifySignature secrets recover now
        (some (setStatus u st)) walletAddress signature message ipAddress).1
      = (AuthMiddleware.verifySignature secrets recover now
          (some u) walletAddress signature message ipAddress).1 ∧
    (AuthMiddleware.verifySignature secrets recover now
        (some (setStatus u st)) walletAddress signature message ipAddress).2
      = Option.map (fun v => setStatus v st)
          (AuthMiddleware.verifySignature secrets recover now
            (some u) walletAddress signature message ipAddress).2 := by
  refine ⟨?_, ?_, ?_, ?_⟩
  · rw [generateNonce_setStatus]
  · rw [generateNonce_setStatus]
  · rw [verifySignature_setStatus]
  · rw [verifySignature_setStatus]

/-- C8: the nonce freshness check is total and never raises — it is a
plain Bool-valued function of its string input, returning false when the
input does not split into exactly three colon-delimited fields or its
timestamp field is non-numeric under JS parseInt, and otherwise true
exactly when now minus the embedded timestamp is at most maxAgeMinutes
(the call in verifySignature passes the default 1500).  Stated as
pointwise equality between the embedded source function and the function
written from the spec wording. -/
theorem c8_validateNonce_total_matches_spec (now : Int) (nonce : String)
    (maxAgeMinutes : Int) :
    NonceService.validateNonce now nonce maxAgeMinutes =
      validateNonceSpec now nonce maxAgeMinutes := by
  unfold NonceService.validateNonce validateNonceSpec
  rcases h : jsSplit ':' nonce with _ | ⟨a, _ | ⟨b, _ | ⟨c, _ | ⟨d, t⟩⟩⟩⟩ <;>
    simp [List.getD]

/-- C5: the OTC verify algorithm is exactly the case analysis stated in
the spec — absent entry false; stale entry deleted and false; exhausted
entry deleted and false; otherwise one attempt is spent and the entry is
deleted with true exactly on a code match, else retained with the bumped
counter and false.  Stated as equality of the returned flag and pointwise
equality of the resulting stores. -/
theorem c5_verifyOTP_matches_spec (now : Int) (store : OtpStore)
    (key cand : String) :
    (verifyOTP now store key cand).1 = (verifyOTPSpec now store key cand).1 ∧
    ∀ k, (verifyOTP now store key cand).2 k = (verifyOTPSpec now store key cand).2 k := by
  unfold verifyOTP verifyOTPSpec
  cases h : store key with
  | none => simp
  | some e =>
    by_cases h1 : (300000 : Int) < now - e.timestamp
    · simp [h1]
    · by_cases h2 : 3 ≤ e.attempts
      · simp [h1, h2]
      · by_cases h3 : e.otp = cand
        · subst h3
          refine ⟨by simp [h1, h2], fun k => ?_⟩
          by_cases hk : k = key <;>
            simp [h1, h2, hk, OtpStore.set, OtpStore.del]
        · refine ⟨by simp [h1, h2, h3, Ne.symm h3], fun k => ?_⟩
          by_cases hk : k = key <;>
            simp [h1, h2, h3, Ne.symm h3, hk, OtpStore.set, OtpStore.del]

/-- C6: an OTC round trip is single-use — after an issue at time t1, a
first verify with the issued code at any time t2 inside the 5-minute
window returns true and deletes the entry, and a second verify with the
same code and no intervening issue returns false. -/
theorem c6_otc_single_use (t1 t2 t3 : Int) (code : String) (store0 : OtpStore)
    (key : String) (hfresh : t2 - t1 ≤ 5 * 60 * 1000) :
    (verifyOTP t2 (generateOTPForUser t1 code store0 key).2 key code).1 = true ∧
    (verifyOTP t2 (generateOTPForUser t1 code store0 key).2 key code).2 key = none ∧
    (verifyOTP t3
      (verifyOTP t2 (generateOTPForUser t1 code store0 key).2 key code).2
      key code).1 = false := by
  have hnot : ¬ (300000 : Int) < t2 - t1 := by omega
  refine ⟨?_, ?_, ?_⟩ <;>
    simp [verifyOTP, generateOTPForUser, OtpStore.set, OtpStore.del, hnot]

/-- C6 witness at a concrete input. -/
theorem c6_otc_single_use_witness :
    (verifyOTP 30 (generateOTPForUser 0 "123456" exEmptyOtp "a@b.com").2
      "a@b.com" "123456").1 = true ∧
    (verifyOTP 30 (generateOTPForUser 0 "123456" exEmptyOtp "a@b.com").2
      "a@b.com" "123456").2 "a@b.com" = none ∧
    (verifyOTP 60
      (verifyOTP 30 (generateOTPForUser 0 "123456" exEmptyOtp "a@b.com").2
        "a@b.com" "123456").2
      "a@b.com" "123456").1 = false :=
  c6_otc_single_use 0 30 60 "123456" exEmptyOtp "a@b.com" (by decide)

/-- C7: token kinds do not cross over — a token that verifies under the
refresh secret but whose payload type is not the string refresh is
rejected by refreshAccessToken, and a token that verifies under the access
secret but whose payload type is not the string access is rejected by
authenticateRequest, in both cases with the type-mismatch rejection. -/
theorem c7_token_kind_separation (secrets : Secrets) (now : Int)
    (t1 t2 : Token) (findUser : String → Option User)
    (h1s : t1.secret = secrets.refreshTokenSecret) (h1e : now < t1.exp)
    (h1t : t1.payload.type ≠ "refresh")
    (h2s : t2.secret = secrets.accessTokenSecret) (h2e : now < t2.exp)
    (h2t : t2.payload.type ≠ "access") :
    AuthMiddleware.refreshAccessToken secrets now t1 = .error .invalidTokenType ∧
    AuthMiddleware.authenticateRequest secrets now findUser (some t2) = .invalidTokenType := by
  constructor
  · unfold AuthMiddleware.refreshAccessToken jwtVerify
    simp [h1s, h1t, not_le.mpr h1e]
  · unfold AuthMiddleware.authenticateRequest jwtVerify
    simp [h2s, h2t, not_le.mpr h2e]

/-- C7 witness at a concrete input: an access-typed token signed with the
refresh secret and a refresh-typed token signed with the access secret,
both unexpired at time 0. -/
theorem c7_token_kind_separation_witness :
    AuthMiddleware.refreshAccessToken exSecrets 0
      { payload := { walletAddress := "0xab", type := "access" },
        secret := "refresh-secret", exp := 1000 } = .error .invalidTokenType ∧
    AuthMiddleware.authenticateRequest exSecrets 0 (fun _ => some exUser0)
      (some { payload := { walletAddress := "0xab", type := "refresh" },
              secret := "access-secret", exp := 1000 }) = .invalidTokenType :=
  c7_token_kind_separation exSecrets 0
    { payload := { walletAddress := "0xab", type := "access" },
      secret := "refresh-secret", exp := 1000 }
    { payload := { walletAddress := "0xab", type := "refresh" },
      secret := "access-secret", exp := 1000 }
    (fun _ => some exUser0)
    (by decide) (by decide) (by decide) (by decide) (by decide) (by decide)

end DocuChain
